import Mathlib

/-!
Shallow embedding of the Smart-Home-Automation-System backend
(src/backend/server.py) in Lean 4, together with proofs of the frozen
claims about the spec.

Modelling conventions:
- Python `datetime` values are modelled by the `DateTime` structure below:
  calendar fields plus an explicit `weekday` field carrying what Python's
  `datetime.weekday()` returns (0 = Monday .. 6 = Sunday).  All the calls
  to `datetime.utcnow()` inside one operation are modelled by a single
  `now` parameter.
- Python dictionaries keyed by device id are modelled as association
  lists (`List (String × _)`) written in insertion order, matching the
  iteration order of a Python dict.
- Side effects of an operation (document-store writes, device-log
  inserts, websocket broadcasts) are returned explicitly as a `List
  Effect` in the order the source performs them.
- Randomness (`random.random`, `random.randint`) is passed in as
  explicit oracle arguments.
- Python exceptions raised by a step are modelled with `Except String`:
  fallible sub-steps of an operation are passed in as `Except` values
  and a `try/except` block turns an `.error` into a logged message and a
  normal return.
- `random.uniform` seeds floating-point values (`response_time`, the
  simulated network delay) that the source never reads back; they are
  not represented.
-/

/-- `DeviceType` enum of server.py. -/
inductive DeviceType where
  | relay
  | switch
  | sensor
  deriving DecidableEq, Repr

/-- `DeviceStatus` enum of server.py. -/
inductive DeviceStatus where
  | online
  | offline
  | error
  deriving DecidableEq, Repr

/-- `RelayState` enum of server.py. -/
inductive RelayState where
  | on
  | off
  deriving DecidableEq, Repr

/-- The string `.value` of a `RelayState` member. -/
def RelayState.value : RelayState → String
  | .on => "on"
  | .off => "off"

/-- The string `.value` of a `DeviceStatus` member. -/
def DeviceStatus.value : DeviceStatus → String
  | .online => "online"
  | .offline => "offline"
  | .error => "error"

/-- `ScheduleType` enum of server.py. -/
inductive ScheduleType where
  | once
  | daily
  | weekly
  deriving DecidableEq, Repr

/-- A Python `datetime`: calendar date, wall-clock time and the weekday
index that `datetime.weekday()` would return (0 = Monday .. 6 = Sunday). -/
structure DateTime where
  year : Nat
  month : Nat
  day : Nat
  hour : Nat
  minute : Nat
  weekday : Nat
  deriving DecidableEq, Repr

/-- Python `d1.date() == d2.date()`: compare only the calendar date. -/
def DateTime.dateEq (d1 d2 : DateTime) : Bool :=
  d1.year = d2.year && d1.month = d2.month && d1.day = d2.day

/-- The `Device` pydantic model of server.py (the random uuid `id` is an
ordinary field here). -/
structure Device where
  id : String
  name : String
  device_type : DeviceType
  room : String
  gpio_pin : Option Int := none
  status : DeviceStatus := .offline
  relay_state : RelayState := .off
  last_seen : DateTime
  created_at : DateTime
  ip_address : Option String := none
  wifi_signal : Option Int := none
  uptime : Nat := 0
  total_runtime : Nat := 0
  deriving DecidableEq, Repr

/-- The `Schedule` pydantic model of server.py. -/
structure Schedule where
  id : String
  device_id : String
  name : String
  schedule_type : ScheduleType
  target_state : RelayState
  trigger_time : String
  trigger_date : Option DateTime := none
  days_of_week : Option (List Int) := none
  is_active : Bool := true
  created_at : DateTime
  deriving DecidableEq, Repr

/-- The `DeviceLog` pydantic model of server.py (random uuid `id`
omitted). -/
structure DeviceLog where
  device_id : String
  action : String
  old_state : Option String := none
  new_state : Option String := none
  triggered_by : String := "manual"
  timestamp : DateTime
  deriving DecidableEq, Repr

/-- Python `s.split(":")` on the underlying character list: split at
every colon, keeping empty segments. -/
def splitCharsOnColon : List Char → List (List Char)
  | [] => [[]]
  | c :: rest =>
    let r := splitCharsOnColon rest
    if c = ':' then [] :: r
    else
      match r with
      | [] => [[c]]
      | h :: t => (c :: h) :: t

/-- Python `int(s)` restricted to the non-empty all-digit strings that a
well-formed `HH:MM` component is; any other input raises `ValueError` in
Python, modelled as `none`. -/
def parseIntDigits (cs : List Char) : Option Nat :=
  if cs ≠ [] && cs.all Char.isDigit then
    some (cs.foldl (fun n c => 10 * n + (c.toNat - 48)) 0)
  else
    none

/-- The trigger-time parsing prefix of `TaskScheduler.should_trigger`:
`trigger_time.split(":")`, then `int(parts[0])` and `int(parts[1])`.
`none` models the Python exception (IndexError on fewer than two parts,
ValueError on a non-numeric part). -/
def parseTriggerTime (s : String) : Option (Nat × Nat) :=
  match splitCharsOnColon s.data with
  | p0 :: p1 :: _ =>
    match parseIntDigits p0, parseIntDigits p1 with
    | some h, some m => some (h, m)
    | _, _ => none
  | _ => none

/-- `TaskScheduler.should_trigger(schedule, current_time)`.  `.error`
models the exception a malformed `trigger_time` raises (which the caller
`scheduler_loop` catches, not this function). -/
def should_trigger (schedule : Schedule) (current_time : DateTime) :
    Except String Bool :=
  match parseTriggerTime schedule.trigger_time with
  | none => .error "invalid trigger_time"
  | some (trigger_hour, trigger_minute) =>
    .ok <|
      if current_time.hour = trigger_hour ∧
          current_time.minute = trigger_minute then
        match schedule.schedule_type with
        | .once =>
          match schedule.trigger_date with
          | some d => current_time.dateEq d
          | none => false
        | .daily => true
        | .weekly =>
          match schedule.days_of_week with
          | some days =>
            if days.isEmpty then false
            else decide ((current_time.weekday : Int) ∈ days)
          | none => false
      else false

example : parseTriggerTime "12:00" = some (12, 0) := by decide

example :
    should_trigger
      { id := "s1", device_id := "d1", name := "n", schedule_type := .daily,
        target_state := .on, trigger_time := "12:00",
        created_at := ⟨2025, 1, 1, 0, 0, 2⟩ }
      ⟨2025, 1, 2, 12, 0, 3⟩ = .ok true := rfl

example :
    should_trigger
      { id := "s1", device_id := "d1", name := "n", schedule_type := .daily,
        target_state := .on, trigger_time := "12:00",
        created_at := ⟨2025, 1, 1, 0, 0, 2⟩ }
      ⟨2025, 1, 2, 12, 1, 3⟩ = .ok false := rfl

/-- One entry of `DeviceSimulator.devices`: the device record, the
last-state-change timestamp and the simulated wifi signal held in
`simulation_data` (the never-read `response_time` float is omitted). -/
structure SimEntry where
  device : Device
  last_state_change : DateTime
  sim_wifi_signal : Int
  deriving DecidableEq, Repr

/-- The mutable state of `DeviceSimulator`: the device map (as an
association list in insertion order) and the `running` flag. -/
structure SimState where
  devices : List (String × SimEntry)
  running : Bool := true
  deriving DecidableEq, Repr

/-- Python `device_id in self.devices` / `self.devices[device_id]`. -/
def SimState.lookup (s : SimState) (device_id : String) : Option SimEntry :=
  (s.devices.find? (fun p => p.1 = device_id)).map Prod.snd

/-- Overwrite the entry stored under an existing key, keeping the
dictionary's insertion order. -/
def assocSet (l : List (String × SimEntry)) (k : String) (v : SimEntry) :
    List (String × SimEntry) :=
  l.map (fun p => if p.1 = k then (k, v) else p)

/-- The fields a `db.devices.update_one` call sets (field absent from
the update document ↦ `none`). -/
structure DeviceSetFields where
  relay_state : Option RelayState := none
  status : Option DeviceStatus := none
  uptime : Option Nat := none
  total_runtime : Option Nat := none
  wifi_signal : Option Int := none
  last_seen : Option DateTime := none
  deriving DecidableEq, Repr

/-- One row of the `devices_status` snapshot array that the simulation
loop broadcasts. -/
structure StatusSnapshot where
  id : String
  status : DeviceStatus
  relay_state : RelayState
  uptime : Nat
  wifi_signal : Option Int
  last_seen : DateTime
  deriving DecidableEq, Repr

/-- A websocket message handed to `manager.broadcast`. -/
inductive BroadcastMsg where
  | deviceUpdate (device_id : String) (relay_state : RelayState)
      (last_seen : DateTime)
  | statusUpdate (devices : List StatusSnapshot)
  deriving DecidableEq, Repr

/-- An external side effect performed by an operation, in program
order: a `db.devices.update_one`, a `db.device_logs.insert_one`, a
`db.schedules.update_one` on `is_active`, or a broadcast publish. -/
inductive Effect where
  | dbUpdateDevice (id : String) (fields : DeviceSetFields)
  | dbInsertLog (log : DeviceLog)
  | dbUpdateScheduleActive (id : String) (active : Bool)
  | publish (msg : BroadcastMsg)
  deriving DecidableEq, Repr

/-- `DeviceSimulator.control_relay(device_id, state)`: returns the
Python return value, the updated simulator state and the side effects
in program order.  The simulated network sleep changes no state and is
not represented. -/
def control_relay (sim : SimState) (device_id : String)
    (state : RelayState) (now : DateTime) :
    Bool × SimState × List Effect :=
  match sim.lookup device_id with
  | none => (false, sim, [])
  | some device_data =>
    let old_state := device_data.device.relay_state
    let device' := { device_data.device with
      relay_state := state
      last_seen := now }
    let entry' := { device_data with
      device := device'
      last_state_change := now }
    let sim' := { sim with devices := assocSet sim.devices device_id entry' }
    let log_entry : DeviceLog := {
      device_id := device_id
      action := "relay_control"
      old_state := some old_state.value
      new_state := some state.value
      triggered_by := "manual"
      timestamp := now }
    (true, sim',
      [ .dbUpdateDevice device_id
          { relay_state := some state, last_seen := some now },
        .dbInsertLog log_entry,
        .publish (.deviceUpdate device_id state now) ])

/-- The per-device random draws one simulation cycle makes:
`random.random() < 0.01` and `random.randint(-5, 5)`. -/
structure TickRand where
  goOffline : Bool
  signalDelta : Int
  deriving DecidableEq, Repr

/-- The body of the `for` loop in `DeviceSimulator.simulate_devices`
for one device: age it, perturb status and signal, accumulate runtime,
refresh last-seen, and persist the five simulated fields. -/
def tickDevice (entry : SimEntry) (r : TickRand) (now : DateTime) :
    SimEntry × Effect :=
  let device := entry.device
  let device := { device with uptime := device.uptime + 5 }
  let device := { device with
    status := if r.goOffline then DeviceStatus.offline else DeviceStatus.online }
  let signal' := max 30 (entry.sim_wifi_signal + r.signalDelta)
  let device := { device with wifi_signal := some signal' }
  let device := { device with
    total_runtime :=
      if device.relay_state = RelayState.on then device.total_runtime + 5
      else device.total_runtime }
  let device := { device with last_seen := now }
  ({ entry with device := device, sim_wifi_signal := signal' },
    .dbUpdateDevice device.id
      { status := some device.status
        uptime := some device.uptime
        total_runtime := some device.total_runtime
        wifi_signal := some signal'
        last_seen := some now })

/-- One iteration of `DeviceSimulator.simulate_devices` (one tick):
sweep every device with `tickDevice`, then, if any devices exist,
broadcast one `status_update` snapshot.  `rand` supplies each device's
random draws. -/
def tick (sim : SimState) (rand : String → TickRand) (now : DateTime) :
    SimState × List Effect :=
  let swept := sim.devices.map
    (fun p => (p.1, tickDevice p.2 (rand p.1) now))
  let devices' := swept.map (fun p => (p.1, p.2.1))
  let updates := swept.map (fun p => p.2.2)
  let statusMsg : List Effect :=
    if devices'.isEmpty then []
    else
      [ .publish (.statusUpdate (devices'.map (fun p =>
          { id := p.2.device.id
            status := p.2.device.status
            relay_state := p.2.device.relay_state
            uptime := p.2.device.uptime
            wifi_signal := p.2.device.wifi_signal
            last_seen := p.2.device.last_seen }))) ]
  ({ sim with devices := devices' }, updates ++ statusMsg)

/-- A websocket connection, identified (as Python objects are) by an
opaque identity. -/
abbrev Conn := Nat

/-- `ConnectionManager.disconnect`: remove the first occurrence if the
connection is present (Python `list.remove`), no-op otherwise. -/
def disconnect (active_connections : List Conn) (websocket : Conn) :
    List Conn :=
  if websocket ∈ active_connections then active_connections.erase websocket
  else active_connections

/-- The `for` loop of `ConnectionManager.broadcast`: attempt delivery
to every connection in list order; `fails c = true` models
`c.send_text` raising.  Returns the deliveries made (in order) and the
`disconnected` list collected (in order). -/
def broadcastSweep (active_connections : List Conn) (fails : Conn → Bool)
    (message : String) : List (Conn × String) × List Conn :=
  active_connections.foldl
    (fun acc c =>
      if fails c then (acc.1, acc.2 ++ [c])
      else (acc.1 ++ [(c, message)], acc.2))
    ([], [])

/-- `ConnectionManager.broadcast(message)`: sweep all connections, then
remove the collected disconnected ones.  Every delivery failure is
swallowed by the bare `except`, so the function is total and returns
(deliveries, new connection list) with no error. -/
def broadcast (active_connections : List Conn) (fails : Conn → Bool)
    (message : String) : List (Conn × String) × List Conn :=
  let swept := broadcastSweep active_connections fails message
  (swept.1, swept.2.foldl disconnect active_connections)

/-- The `DeviceCreate` pydantic model of server.py. -/
structure DeviceCreate where
  name : String
  device_type : DeviceType := .relay
  room : String
  gpio_pin : Option Int := some 18
  deriving DecidableEq, Repr

/-- The `create_device` route handler's construction of the new
`Device`: pydantic defaults, then a synthetic ip address from a random
octet in 100..200, then status forced to online. -/
def create_device (device_input : DeviceCreate) (new_id : String)
    (ip_octet : Nat) (now : DateTime) : Device :=
  { id := new_id
    name := device_input.name
    device_type := device_input.device_type
    room := device_input.room
    gpio_pin := device_input.gpio_pin
    status := .online
    relay_state := .off
    last_seen := now
    created_at := now
    ip_address := some ("192.168.1." ++ toString ip_octet)
    wifi_signal := none
    uptime := 0
    total_runtime := 0 }

/-- Python dict assignment `self.devices[id] = entry`: overwrite in
place if the key exists, append otherwise. -/
def assocInsert (l : List (String × SimEntry)) (k : String) (v : SimEntry) :
    List (String × SimEntry) :=
  if l.any (fun p => p.1 = k) then assocSet l k v else l ++ [(k, v)]

/-- `DeviceSimulator.add_device`: register a device, seeding the
simulated wifi signal with `randint(50, 100)`. -/
def add_device (sim : SimState) (device : Device) (now : DateTime)
    (seed_signal : Int) : SimState :=
  { sim with
    devices := assocInsert sim.devices device.id
      { device := device
        last_state_change := now
        sim_wifi_signal := seed_signal } }

/-- Exceptions the awaited sub-steps of
`TaskScheduler.execute_schedule` may raise: the `control_relay` call,
the device-log insert, and the schedule-deactivation write.  `.ok ()`
means the step completes; `.error e` means it raises `e` (and, for the
raising step, produces no effect). -/
structure ExecBehavior where
  ctrl : Except String Unit := .ok ()
  insertLog : Except String Unit := .ok ()
  deactivate : Except String Unit := .ok ()

/-- `TaskScheduler.execute_schedule(schedule)`: run the body under the
`try`; any step's exception is caught by the `except`, which logs it
and returns normally.  Result: (new simulator state, effects performed,
logged error if the body raised). -/
def execute_schedule (sim : SimState) (schedule : Schedule)
    (now : DateTime) (b : ExecBehavior) :
    SimState × List Effect × Option String :=
  match b.ctrl with
  | .error e => (sim, [], some e)
  | .ok _ =>
    let (success, sim', effs) :=
      control_relay sim schedule.device_id schedule.target_state now
    if success then
      match b.insertLog with
      | .error e => (sim', effs, some e)
      | .ok _ =>
        let log_entry : DeviceLog := {
          device_id := schedule.device_id
          action := "scheduled_control"
          old_state := none
          new_state := some schedule.target_state.value
          triggered_by := "schedule:" ++ schedule.name
          timestamp := now }
        let effs := effs ++ [.dbInsertLog log_entry]
        if schedule.schedule_type = ScheduleType.once then
          match b.deactivate with
          | .error e => (sim', effs, some e)
          | .ok _ =>
            (sim', effs ++ [.dbUpdateScheduleActive schedule.id false], none)
        else
          (sim', effs, none)
    else
      (sim', effs, none)

/-- The result of one pass of `scheduler_loop`'s `for` loop over the
loaded schedules. -/
structure CycleResult where
  state : SimState
  executed : List (String × Option String)
  effects : List Effect
  uncaught : Option String
  deriving Repr

/-- The `for schedule_data in schedules` body of
`TaskScheduler.scheduler_loop`: evaluate `should_trigger` for each
schedule in order and execute the triggering ones.  An exception from
`should_trigger` (malformed `trigger_time`) is not caught inside the
loop: it aborts the rest of the pass and escapes as `uncaught`.
`executed` records, per executed schedule, its id and the error its
execution logged, if any. -/
def scheduler_cycle (sim : SimState) (now : DateTime) :
    List (Schedule × ExecBehavior) → CycleResult
  | [] => ⟨sim, [], [], none⟩
  | (schedule, b) :: rest =>
    match should_trigger schedule now with
    | .error e => ⟨sim, [], [], some e⟩
    | .ok trig =>
      if trig then
        let (sim', effs, logged) := execute_schedule sim schedule now b
        let r := scheduler_cycle sim' now rest
        ⟨r.state, (schedule.id, logged) :: r.executed, effs ++ r.effects,
          r.uncaught⟩
      else
        scheduler_cycle sim now rest

/-- One iteration of `TaskScheduler.scheduler_loop`: run one pass over
the active schedules inside the `try`; whether the pass raised or not,
log and `await asyncio.sleep(60)`.  The `Nat` component is the sleep
the iteration ends with — the loop is never terminated by an error. -/
def scheduler_iteration (sim : SimState)
    (schedules : List (Schedule × ExecBehavior)) (now : DateTime) :
    SimState × Option String × Nat :=
  let r := scheduler_cycle sim now schedules
  (r.state, r.uncaught, 60)

/-- `should_trigger` as the `scheduler_loop` guard uses it: `true` only
on a normal `True` return (an exception never reaches the guard). -/
def triggersOk (schedule : Schedule) (now : DateTime) : Bool :=
  match should_trigger schedule now with
  | .ok b => b
  | .error _ => false

/-- The schedule store: `db.schedules.find({"is_active": True})` of
`scheduler_loop`. -/
def loadActiveSchedules (store : List Schedule) : List Schedule :=
  store.filter (fun s => s.is_active)

/-- The store-side meaning of the
`db.schedules.update_one({"id": id}, {"$set": {"is_active": False}})`
effect emitted by `execute_schedule` for a once-type schedule. -/
def applyScheduleDeactivation (store : List Schedule) (schedule_id : String) :
    List Schedule :=
  store.map (fun s =>
    if s.id = schedule_id then { s with is_active := false } else s)

/-- An operation interleaving on the simulator state: a simulation tick
or a `control_relay` call (the only two operations that touch the
uptime / runtime counters or the relay state). -/
inductive SimOp where
  | tickOp (rand : String → TickRand) (now : DateTime)
  | relayOp (device_id : String) (state : RelayState) (now : DateTime)

/-- Apply one operation to the simulator state. -/
def runOp (s : SimState) : SimOp → SimState
  | .tickOp r now => (tick s r now).1
  | .relayOp id st now => (control_relay s id st now).2.1

/-- Apply a sequence of operations. -/
def runOps (s : SimState) : List SimOp → SimState
  | [] => s
  | op :: rest => runOps (runOp s op) rest

/-- Every registered device satisfies `total_runtime ≤ uptime`. -/
def runtimeLeUptime (s : SimState) : Bool :=
  s.devices.all (fun p => p.2.device.total_runtime ≤ p.2.device.uptime)

/-- Every registered device has `total_runtime = 0`. -/
def allRuntimeZero (s : SimState) : Bool :=
  s.devices.all (fun p => p.2.device.total_runtime = 0)

/-- Every registered device's relay is off. -/
def allRelaysOff (s : SimState) : Bool :=
  s.devices.all (fun p => p.2.device.relay_state = RelayState.off)

/-- The operation never commands a relay on. -/
def neverOn : SimOp → Bool
  | .tickOp _ _ => true
  | .relayOp _ st _ => st = RelayState.off

/-- The device-log inserts among a list of effects, in order. -/
def logsOf (effects : List Effect) : List DeviceLog :=
  effects.filterMap (fun e =>
    match e with
    | .dbInsertLog l => some l
    | _ => none)

/-- Monday 2025-06-02 at 12:00 (weekday index 0). -/
def sampleNow : DateTime := ⟨2025, 6, 2, 12, 0, 0⟩

/-- A concrete registered device used to instantiate the theorems. -/
def sampleDevice : Device :=
  { id := "dev1", name := "Lamp", device_type := .relay, room := "den",
    last_seen := sampleNow, created_at := sampleNow }

/-- The simulator entry holding `sampleDevice`. -/
def sampleEntry : SimEntry := ⟨sampleDevice, sampleNow, 70⟩

/-- A simulator with `sampleDevice` registered. -/
def sampleSim : SimState := ⟨[("dev1", sampleEntry)], true⟩

/-- A once-type schedule targeting `sampleDevice` at 12:00 on
2025-06-02. -/
def sampleOnce : Schedule :=
  { id := "sch1", device_id := "dev1", name := "wake",
    schedule_type := .once, target_state := .on, trigger_time := "12:00",
    trigger_date := some sampleNow, created_at := sampleNow }

/-- A daily schedule targeting `sampleDevice` at 12:00. -/
def sampleDaily : Schedule :=
  { id := "sch2", device_id := "dev1", name := "noon",
    schedule_type := .daily, target_state := .on, trigger_time := "12:00",
    created_at := sampleNow }

/-- A weekly schedule for Monday and Wednesday at 12:00. -/
def sampleWeekly : Schedule :=
  { id := "sch3", device_id := "dev1", name := "mw",
    schedule_type := .weekly, target_state := .on, trigger_time := "12:00",
    days_of_week := some [0, 2], created_at := sampleNow }

/-- The simulator entry for `sampleDevice` with its relay on. -/
def sampleEntryOn : SimEntry :=
  ⟨{ sampleDevice with relay_state := RelayState.on }, sampleNow, 70⟩

/-- A simulator holding the relay-on sample device. -/
def sampleSimOn : SimState := ⟨[("dev1", sampleEntryOn)], true⟩

theorem find?_key_eq {l : List (String × SimEntry)} {k : String}
    {q : String × SimEntry}
    (h : l.find? (fun p => p.1 = k) = some q) : q.1 = k := by
  have := List.find?_some h
  simpa using this

theorem lookup_assocSet_self {l : List (String × SimEntry)} {k : String}
    {q : String × SimEntry} (v : SimEntry)
    (h : l.find? (fun p => p.1 = k) = some q) :
    ((assocSet l k v).find? (fun p => p.1 = k)).map Prod.snd = some v := by
  unfold assocSet
  rw [List.find?_map]
  have hpred :
      ((fun p : String × SimEntry => decide (p.1 = k)) ∘
        (fun p : String × SimEntry => if p.1 = k then (k, v) else p)) =
      (fun p : String × SimEntry => decide (p.1 = k)) := by
    funext p
    by_cases hp : p.1 = k <;> simp [hp]
  rw [hpred, h]
  simp [find?_key_eq h]

theorem control_relay_found {sim : SimState} {device_id : String}
    {entry : SimEntry} (state : RelayState) (now : DateTime)
    (h : sim.lookup device_id = some entry) :
    control_relay sim device_id state now =
      (true,
        { sim with
          devices := assocSet sim.devices device_id
            { device := { entry.device with
                relay_state := state
                last_seen := now }
              last_state_change := now
              sim_wifi_signal := entry.sim_wifi_signal } },
        [ .dbUpdateDevice device_id
            { relay_state := some state, last_seen := some now },
          .dbInsertLog
            { device_id := device_id
              action := "relay_control"
              old_state := some entry.device.relay_state.value
              new_state := some state.value
              triggered_by := "manual"
              timestamp := now },
          .publish (.deviceUpdate device_id state now) ]) := by
  unfold control_relay
  rw [h]

theorem control_relay_lookup {sim : SimState} {device_id : String}
    {entry : SimEntry} (state : RelayState) (now : DateTime)
    (h : sim.lookup device_id = some entry) :
    (control_relay sim device_id state now).2.1.lookup device_id =
      some { device := { entry.device with
               relay_state := state
               last_seen := now }
             last_state_change := now
             sim_wifi_signal := entry.sim_wifi_signal } := by
  rw [control_relay_found state now h]
  unfold SimState.lookup at h ⊢
  cases hfind : sim.devices.find? (fun p => p.1 = device_id) with
  | none => rw [hfind] at h; simp at h
  | some q =>
    exact lookup_assocSet_self _ hfind

theorem tick_devices (s : SimState) (r : String → TickRand)
    (now : DateTime) :
    (tick s r now).1.devices =
      s.devices.map (fun p => (p.1, (tickDevice p.2 (r p.1) now).1)) := by
  unfold tick
  simp [List.map_map]

theorem lookup_tick (s : SimState) (r : String → TickRand)
    (now : DateTime) (id : String) :
    (tick s r now).1.lookup id =
      (s.lookup id).map (fun e => (tickDevice e (r id) now).1) := by
  unfold SimState.lookup
  rw [tick_devices, List.find?_map]
  have hpred :
      ((fun p : String × SimEntry => decide (p.1 = id)) ∘
        (fun p : String × SimEntry => (p.1, (tickDevice p.2 (r p.1) now).1))) =
      (fun p : String × SimEntry => decide (p.1 = id)) := by
    funext p
    rfl
  rw [hpred]
  cases hfind : s.devices.find? (fun p => p.1 = id) with
  | none => rfl
  | some q =>
    simp [find?_key_eq hfind]

theorem tickDevice_uptime (e : SimEntry) (r : TickRand) (now : DateTime) :
    (tickDevice e r now).1.device.uptime = e.device.uptime + 5 := by
  simp [tickDevice]

theorem tickDevice_runtime (e : SimEntry) (r : TickRand) (now : DateTime) :
    (tickDevice e r now).1.device.total_runtime =
      (if e.device.relay_state = RelayState.on then
        e.device.total_runtime + 5
      else e.device.total_runtime) := by
  simp [tickDevice]

theorem tickDevice_relay (e : SimEntry) (r : TickRand) (now : DateTime) :
    (tickDevice e r now).1.device.relay_state = e.device.relay_state := by
  simp [tickDevice]

theorem tickDevice_status (e : SimEntry) (r : TickRand) (now : DateTime) :
    (tickDevice e r now).1.device.status =
      (if r.goOffline then DeviceStatus.offline else DeviceStatus.online) := by
  simp [tickDevice]

theorem lookup_mem {s : SimState} {id : String} {e : SimEntry}
    (h : s.lookup id = some e) : (id, e) ∈ s.devices := by
  unfold SimState.lookup at h
  cases hfind : s.devices.find? (fun p => p.1 = id) with
  | none => rw [hfind] at h; simp at h
  | some q =>
    rw [hfind] at h
    have h2 : q.2 = e := by simpa using h
    have hkey := find?_key_eq hfind
    have hmem := List.mem_of_find?_eq_some hfind
    cases q with
    | mk q1 q2 =>
      simp only at h2 hkey
      rw [← hkey, ← h2]
      exact hmem

theorem all_assocSet {l : List (String × SimEntry)} {k : String}
    {v : SimEntry} {P : String × SimEntry → Bool}
    (hl : l.all P = true) (hv : P (k, v) = true) :
    (assocSet l k v).all P = true := by
  unfold assocSet
  rw [List.all_eq_true] at hl ⊢
  intro p hp
  obtain ⟨q, hq, rfl⟩ := List.mem_map.mp hp
  by_cases hk : q.1 = k
  · simpa [hk] using hv
  · simpa [hk] using hl q hq

theorem runtimeLeUptime_tick (s : SimState) (r : String → TickRand)
    (now : DateTime) (h : runtimeLeUptime s = true) :
    runtimeLeUptime (tick s r now).1 = true := by
  unfold runtimeLeUptime at h ⊢
  rw [tick_devices]
  simp only [List.all_eq_true, decide_eq_true_eq] at h ⊢
  intro p hp
  obtain ⟨q, hq, rfl⟩ := List.mem_map.mp hp
  have hq' := h q hq
  simp only [tickDevice_uptime, tickDevice_runtime]
  split <;> omega

theorem runtimeLeUptime_control_relay (s : SimState) (id : String)
    (st : RelayState) (now : DateTime) (h : runtimeLeUptime s = true) :
    runtimeLeUptime (control_relay s id st now).2.1 = true := by
  cases hl : s.lookup id with
  | none => unfold control_relay; rw [hl]; exact h
  | some entry =>
    rw [control_relay_found st now hl]
    unfold runtimeLeUptime at h ⊢
    apply all_assocSet h
    have hmem := lookup_mem hl
    rw [List.all_eq_true] at h
    simpa using h (id, entry) hmem

theorem allRelaysOff_tick (s : SimState) (r : String → TickRand)
    (now : DateTime) (h : allRelaysOff s = true) :
    allRelaysOff (tick s r now).1 = true := by
  unfold allRelaysOff at h ⊢
  rw [tick_devices]
  simp only [List.all_eq_true, decide_eq_true_eq] at h ⊢
  intro p hp
  obtain ⟨q, hq, rfl⟩ := List.mem_map.mp hp
  rw [tickDevice_relay]
  exact h q hq

theorem allRuntimeZero_tick (s : SimState) (r : String → TickRand)
    (now : DateTime) (hoff : allRelaysOff s = true)
    (h0 : allRuntimeZero s = true) :
    allRuntimeZero (tick s r now).1 = true := by
  unfold allRelaysOff at hoff
  unfold allRuntimeZero at h0 ⊢
  rw [tick_devices]
  simp only [List.all_eq_true, decide_eq_true_eq] at hoff h0 ⊢
  intro p hp
  obtain ⟨q, hq, rfl⟩ := List.mem_map.mp hp
  rw [tickDevice_runtime, hoff q hq]
  simp [h0 q hq]

theorem allRelaysOff_control_relay (s : SimState) (id : String)
    (now : DateTime) (h : allRelaysOff s = true) :
    allRelaysOff (control_relay s id RelayState.off now).2.1 = true := by
  cases hl : s.lookup id with
  | none => unfold control_relay; rw [hl]; exact h
  | some entry =>
    rw [control_relay_found RelayState.off now hl]
    unfold allRelaysOff at h ⊢
    apply all_assocSet h
    simp

theorem allRuntimeZero_control_relay (s : SimState) (id : String)
    (st : RelayState) (now : DateTime) (h : allRuntimeZero s = true) :
    allRuntimeZero (control_relay s id st now).2.1 = true := by
  cases hl : s.lookup id with
  | none => unfold control_relay; rw [hl]; exact h
  | some entry =>
    rw [control_relay_found st now hl]
    unfold allRuntimeZero at h ⊢
    apply all_assocSet h
    have hmem := lookup_mem hl
    rw [List.all_eq_true] at h
    simpa using h (id, entry) hmem

theorem runtimeLeUptime_runOps (s : SimState) (ops : List SimOp)
    (h : runtimeLeUptime s = true) :
    runtimeLeUptime (runOps s ops) = true := by
  induction ops generalizing s with
  | nil => exact h
  | cons op rest ih =>
    cases op with
    | tickOp r now =>
      exact ih _ (runtimeLeUptime_tick s r now h)
    | relayOp id st now =>
      exact ih _ (runtimeLeUptime_control_relay s id st now h)

theorem offZero_runOps (s : SimState) (ops : List SimOp)
    (hoff : allRelaysOff s = true) (h0 : allRuntimeZero s = true)
    (hops : ∀ op ∈ ops, neverOn op = true) :
    allRelaysOff (runOps s ops) = true ∧
      allRuntimeZero (runOps s ops) = true := by
  induction ops generalizing s with
  | nil => exact ⟨hoff, h0⟩
  | cons op rest ih =>
    cases op with
    | tickOp r now =>
      exact ih _ (allRelaysOff_tick s r now hoff)
        (allRuntimeZero_tick s r now hoff h0)
        (fun op' h' => hops op' (List.mem_cons_of_mem _ h'))
    | relayOp id st now =>
      have hst : st = RelayState.off := by
        have := hops _ (List.mem_cons_self _ _)
        simpa [neverOn] using this
      subst hst
      exact ih _ (allRelaysOff_control_relay s id now hoff)
        (allRuntimeZero_control_relay s id RelayState.off now h0)
        (fun op' h' => hops op' (List.mem_cons_of_mem _ h'))

theorem broadcastSweep_foldl (fails : Conn → Bool) (message : String)
    (l : List Conn) (d : List (Conn × String)) (x : List Conn) :
    l.foldl
      (fun acc c =>
        if fails c then (acc.1, acc.2 ++ [c])
        else (acc.1 ++ [(c, message)], acc.2))
      (d, x) =
    (d ++ (l.filter (fun c => !fails c)).map (fun c => (c, message)),
      x ++ l.filter fails) := by
  induction l generalizing d x with
  | nil => simp
  | cons c rest ih =>
    by_cases hc : fails c <;> simp [hc, ih]

theorem broadcastSweep_eq (active : List Conn) (fails : Conn → Bool)
    (message : String) :
    broadcastSweep active fails message =
      ((active.filter (fun c => !fails c)).map (fun c => (c, message)),
        active.filter fails) := by
  unfold broadcastSweep
  simpa using broadcastSweep_foldl fails message active [] []

theorem unique_fail_filters (fails : Conn → Bool) :
    ∀ (active : List Conn) (c : Conn), active.Nodup → c ∈ active →
      fails c = true → (∀ x ∈ active, x ≠ c → fails x = false) →
      active.filter (fun x => !fails x) = active.erase c ∧
        active.filter fails = [c] := by
  intro active
  induction active with
  | nil => intro c _ hmem _ _; cases hmem
  | cons a rest ih =>
    intro c hnd hmem hc hothers
    by_cases hac : a = c
    · subst hac
      have hnotin : a ∉ rest := (List.nodup_cons.mp hnd).1
      have hrest : ∀ x ∈ rest, fails x = false := by
        intro x hx
        exact hothers x (List.mem_cons_of_mem _ hx)
          (fun he => hnotin (he ▸ hx))
      constructor
      · rw [List.erase_cons_head]
        rw [List.filter_cons_of_neg (by simp [hc])]
        exact List.filter_eq_self.mpr (fun x hx => by simp [hrest x hx])
      · rw [List.filter_cons_of_pos (by simp [hc])]
        rw [List.filter_eq_nil_iff.mpr (fun x hx => by simp [hrest x hx])]
    · have hmem' : c ∈ rest := by
        rcases List.mem_cons.mp hmem with h | h
        · exact absurd h.symm hac
        · exact h
      have hfa : fails a = false := hothers a (List.mem_cons_self _ _) hac
      have hnd' := (List.nodup_cons.mp hnd).2
      have hothers' : ∀ x ∈ rest, x ≠ c → fails x = false :=
        fun x hx => hothers x (List.mem_cons_of_mem _ hx)
      obtain ⟨h1, h2⟩ := ih c hnd' hmem' hc hothers'
      have herase : (a :: rest).erase c = a :: rest.erase c :=
        List.erase_cons_tail (by simpa using hac)
      constructor
      · rw [herase]
        simp [List.filter_cons, hfa, h1]
      · simp [List.filter_cons, hfa, h2]

theorem execute_schedule_ctrl_error (sim : SimState) (schedule : Schedule)
    (now : DateTime) (b : ExecBehavior) (e : String)
    (h : b.ctrl = .error e) :
    execute_schedule sim schedule now b = (sim, [], some e) := by
  unfold execute_schedule
  rw [h]

theorem should_trigger_of_parse {schedule : Schedule} (now : DateTime)
    (h : (parseTriggerTime schedule.trigger_time).isSome = true) :
    should_trigger schedule now = .ok (triggersOk schedule now) := by
  unfold triggersOk
  cases hst : should_trigger schedule now with
  | ok b => rfl
  | error e =>
    unfold should_trigger at hst
    cases hp : parseTriggerTime schedule.trigger_time with
    | none => rw [hp] at h; simp at h
    | some v => rw [hp] at hst; simp at hst

theorem scheduler_cycle_complete (now : DateTime) :
    ∀ (schedules : List (Schedule × ExecBehavior)) (sim : SimState),
      (∀ sb ∈ schedules, (parseTriggerTime sb.1.trigger_time).isSome = true) →
      (scheduler_cycle sim now schedules).uncaught = none ∧
        (scheduler_cycle sim now schedules).executed.map Prod.fst =
          (schedules.filter (fun sb => triggersOk sb.1 now)).map
            (fun sb => sb.1.id) := by
  intro schedules
  induction schedules with
  | nil =>
    intro sim _
    simp [scheduler_cycle]
  | cons sb rest ih =>
    intro sim h
    obtain ⟨schedule, b⟩ := sb
    have hp := h _ (List.mem_cons_self _ _)
    have hst := should_trigger_of_parse now hp
    have htail := fun sb' h' => h sb' (List.mem_cons_of_mem _ h')
    unfold scheduler_cycle
    rw [hst]
    cases htrig : triggersOk schedule now with
    | false =>
      simp only [htrig] at hst ⊢
      simpa [htrig] using ih sim htail
    | true =>
      rcases hex : execute_schedule sim schedule now b with ⟨sim', effs, logged⟩
      obtain ⟨ih1, ih2⟩ := ih sim' htail
      simp [hex, htrig, ih1, ih2]

/-- C2: for a daily schedule, `should_trigger` returns true exactly when
the evaluation time's hour and minute equal the parsed `trigger_time` —
an exact minute match, so one minute earlier or later yields false. -/
theorem C2_daily_exact_minute (schedule : Schedule) (now : DateTime)
    (th tm : Nat)
    (hd : schedule.schedule_type = ScheduleType.daily)
    (hp : parseTriggerTime schedule.trigger_time = some (th, tm)) :
    should_trigger schedule now = .ok true ↔
      (now.hour = th ∧ now.minute = tm) := by
  unfold should_trigger
  rw [hp]
  by_cases h : now.hour = th ∧ now.minute = tm
  · simp [h.1, h.2, hd]
  · simp [h]

/-- C2 witness: the daily 12:00 schedule triggers at 12:00. -/
theorem C2_witness :
    should_trigger sampleDaily sampleNow = Except.ok true :=
  (C2_daily_exact_minute sampleDaily sampleNow 12 0 rfl (by decide)).mpr
    ⟨rfl, rfl⟩

/-- C3: for a weekly schedule whose hour and minute match the parsed
`trigger_time`, `should_trigger` is true iff the evaluation time's
weekday index (0 = Monday .. 6 = Sunday) is in the configured non-empty
`days_of_week`; with no day set configured it is false. -/
theorem C3_weekly_day_set (schedule : Schedule) (now : DateTime)
    (days : List Int) (th tm : Nat)
    (hw : schedule.schedule_type = ScheduleType.weekly)
    (hp : parseTriggerTime schedule.trigger_time = some (th, tm)) :
    (schedule.days_of_week = some days → days ≠ [] →
      now.hour = th → now.minute = tm →
      (should_trigger schedule now = .ok true ↔
        (now.weekday : Int) ∈ days)) ∧
    (schedule.days_of_week = none → should_trigger schedule now = .ok false) := by
  constructor
  · intro hdays hne hh hm
    unfold should_trigger
    rw [hp]
    simp [hh, hm, hw, hdays, hne]
  · intro hnone
    unfold should_trigger
    rw [hp]
    by_cases h : now.hour = th ∧ now.minute = tm
    · simp [h.1, h.2, hw, hnone]
    · simp [h]

/-- C3 witness: the Monday/Wednesday 12:00 schedule triggers on Monday
noon, and the same schedule with no day set does not. -/
theorem C3_witness :
    should_trigger sampleWeekly sampleNow = Except.ok true ∧
    should_trigger { sampleWeekly with days_of_week := none } sampleNow =
      Except.ok false := by
  constructor
  · exact ((C3_weekly_day_set sampleWeekly sampleNow [0, 2] 12 0 rfl
      (by decide)).1 rfl (by decide) rfl rfl).mpr (by decide)
  · exact (C3_weekly_day_set { sampleWeekly with days_of_week := none }
      sampleNow [] 12 0 rfl (by decide)).2 rfl

/-- C1: a once-type schedule with trigger date D set triggers exactly
when the wall-clock hour and minute equal the parsed trigger time and
the calendar date equals D's; after a successful firing,
`execute_schedule` emits the store write that clears the active flag,
and a later cycle's load of active schedules no longer contains a
schedule with that id. -/
theorem C1_once_fires_then_deactivates (schedule : Schedule)
    (now D : DateTime) (th tm : Nat) (sim : SimState) (entry : SimEntry)
    (store : List Schedule)
    (h1 : schedule.schedule_type = ScheduleType.once)
    (h2 : schedule.trigger_date = some D)
    (hp : parseTriggerTime schedule.trigger_time = some (th, tm))
    (hdev : sim.lookup schedule.device_id = some entry) :
    (should_trigger schedule now = .ok true ↔
      (now.hour = th ∧ now.minute = tm ∧ now.dateEq D = true)) ∧
    Effect.dbUpdateScheduleActive schedule.id false ∈
      (execute_schedule sim schedule now {}).2.1 ∧
    (∀ s ∈ loadActiveSchedules (applyScheduleDeactivation store schedule.id),
      s.id ≠ schedule.id) := by
  refine ⟨?_, ?_, ?_⟩
  · unfold should_trigger
    rw [hp]
    by_cases h : now.hour = th ∧ now.minute = tm
    · simp [h.1, h.2, h1, h2]
    · simp [h]
      intro hx hy
      exact absurd ⟨hx, hy⟩ h
  · unfold execute_schedule
    rw [control_relay_found schedule.target_state now hdev]
    simp [h1]
  · intro s hs
    unfold loadActiveSchedules applyScheduleDeactivation at hs
    rw [List.mem_filter] at hs
    obtain ⟨hmem, hact⟩ := hs
    obtain ⟨q, hq, rfl⟩ := List.mem_map.mp hmem
    by_cases hid : q.id = schedule.id
    · simp [hid] at hact
    · simp [hid]

/-- C1 witness: the once-type schedule for noon 2025-06-02 triggers at
that minute, its execution emits the deactivation write, and the next
active-schedule load excludes it. -/
theorem C1_witness :
    (should_trigger sampleOnce sampleNow = Except.ok true ↔
      (sampleNow.hour = 12 ∧ sampleNow.minute = 0 ∧
        sampleNow.dateEq sampleNow = true)) ∧
    Effect.dbUpdateScheduleActive sampleOnce.id false ∈
      (execute_schedule sampleSim sampleOnce sampleNow {}).2.1 ∧
    (∀ s ∈ loadActiveSchedules
        (applyScheduleDeactivation [sampleOnce] sampleOnce.id),
      s.id ≠ sampleOnce.id) :=
  C1_once_fires_then_deactivates sampleOnce sampleNow sampleNow 12 0
    sampleSim sampleEntry [sampleOnce] rfl rfl (by decide) (by decide)

/-- C4: `control_relay` on a registered device returns true, sets the
device's relay state and last-seen, and performs exactly three effects
in order: one store write setting exactly `relay_state` and `last_seen`,
one device-log insert with `triggered_by="manual"` recording old and new
states, and one `device_update` broadcast with the device id, relay
state and last-seen. -/
theorem C4_control_relay_known (sim : SimState) (device_id : String)
    (state : RelayState) (now : DateTime) (entry : SimEntry)
    (h : sim.lookup device_id = some entry) :
    (control_relay sim device_id state now).1 = true ∧
    (control_relay sim device_id state now).2.1.lookup device_id =
      some { device := { entry.device with
               relay_state := state
               last_seen := now }
             last_state_change := now
             sim_wifi_signal := entry.sim_wifi_signal } ∧
    (control_relay sim device_id state now).2.2 =
      [ .dbUpdateDevice device_id
          { relay_state := some state, last_seen := some now },
        .dbInsertLog
          { device_id := device_id
            action := "relay_control"
            old_state := some entry.device.relay_state.value
            new_state := some state.value
            triggered_by := "manual"
            timestamp := now },
        .publish (.deviceUpdate device_id state now) ] := by
  refine ⟨?_, control_relay_lookup state now h, ?_⟩ <;>
    rw [control_relay_found state now h]

/-- C4 witness: turning the sample device on at noon. -/
theorem C4_witness :
    (control_relay sampleSim "dev1" RelayState.on sampleNow).1 = true ∧
    (control_relay sampleSim "dev1" RelayState.on sampleNow).2.1.lookup
        "dev1" =
      some { device := { sampleDevice with
               relay_state := RelayState.on
               last_seen := sampleNow }
             last_state_change := sampleNow
             sim_wifi_signal := sampleEntry.sim_wifi_signal } ∧
    (control_relay sampleSim "dev1" RelayState.on sampleNow).2.2 =
      [ .dbUpdateDevice "dev1"
          { relay_state := some RelayState.on, last_seen := some sampleNow },
        .dbInsertLog
          { device_id := "dev1"
            action := "relay_control"
            old_state := some sampleDevice.relay_state.value
            new_state := some RelayState.on.value
            triggered_by := "manual"
            timestamp := sampleNow },
        .publish (.deviceUpdate "dev1" RelayState.on sampleNow) ] :=
  C4_control_relay_known sampleSim "dev1" RelayState.on sampleNow
    sampleEntry (by decide)

/-- C5: `control_relay` on an unregistered id returns false and has no
side effect: no state change and an empty effect list (no log insert,
no broadcast, no store write). -/
theorem C5_control_relay_unknown (sim : SimState) (device_id : String)
    (state : RelayState) (now : DateTime)
    (h : sim.lookup device_id = none) :
    control_relay sim device_id state now = (false, sim, []) := by
  unfold control_relay
  rw [h]

/-- C5 witness: controlling an id the simulator does not know. -/
theorem C5_witness :
    control_relay sampleSim "ghost" RelayState.on sampleNow =
      (false, sampleSim, []) :=
  C5_control_relay_unknown sampleSim "ghost" RelayState.on sampleNow
    (by decide)

/-- C6: one tick adds 5 to a registered device's uptime and adds 5 to
its total runtime exactly when its relay is on (and only then); a
`control_relay` call touches neither counter; `total_runtime ≤ uptime`
is preserved along any sequence of ticks and relay commands, relay-on
states and relay-on commands included; and, additionally, a run from a
state with all relays off and all runtimes zero that never commands a
relay on keeps every total runtime at 0. -/
theorem C6_runtime_uptime_invariant (s : SimState)
    (r : String → TickRand) (now : DateTime) (ops : List SimOp)
    (id : String) (entry : SimEntry) (st2 : RelayState) (now2 : DateTime)
    (h : s.lookup id = some entry)
    (hle : runtimeLeUptime s = true) :
    ((tick s r now).1.lookup id = some ((tickDevice entry (r id) now).1) ∧
      (tickDevice entry (r id) now).1.device.uptime =
        entry.device.uptime + 5 ∧
      (tickDevice entry (r id) now).1.device.total_runtime =
        (if entry.device.relay_state = RelayState.on then
          entry.device.total_runtime + 5
        else entry.device.total_runtime)) ∧
    ((control_relay s id st2 now2).2.1.lookup id).map
        (fun q => (q.device.uptime, q.device.total_runtime)) =
      some (entry.device.uptime, entry.device.total_runtime) ∧
    runtimeLeUptime (runOps s ops) = true ∧
    (allRelaysOff s = true → allRuntimeZero s = true →
      (∀ op ∈ ops, neverOn op = true) →
      allRuntimeZero (runOps s ops) = true) := by
  refine ⟨⟨?_, tickDevice_uptime entry (r id) now,
      tickDevice_runtime entry (r id) now⟩, ?_, ?_, ?_⟩
  · rw [lookup_tick, h]
    rfl
  · rw [control_relay_lookup st2 now2 h]
    rfl
  · exact runtimeLeUptime_runOps s ops hle
  · intro hoff h0 hops
    exact (offZero_runOps s ops hoff h0 hops).2

/-- C6 witness: with the sample relay on, a tick adds 5 to both
counters and `total_runtime ≤ uptime` survives a run that commands the
relay on and then ticks twice; from the all-off sample state, the
relay-free run of the same length keeps runtime at 0. -/
theorem C6_witness :
    ((tick sampleSimOn (fun _ => ⟨false, 3⟩) sampleNow).1.lookup "dev1" =
        some ((tickDevice sampleEntryOn ⟨false, 3⟩ sampleNow).1) ∧
      (tickDevice sampleEntryOn ⟨false, 3⟩ sampleNow).1.device.uptime =
        sampleEntryOn.device.uptime + 5 ∧
      (tickDevice sampleEntryOn ⟨false, 3⟩ sampleNow).1.device.total_runtime =
        (if sampleEntryOn.device.relay_state = RelayState.on then
          sampleEntryOn.device.total_runtime + 5
        else sampleEntryOn.device.total_runtime)) ∧
    ((control_relay sampleSimOn "dev1" RelayState.off
        sampleNow).2.1.lookup "dev1").map
        (fun q => (q.device.uptime, q.device.total_runtime)) =
      some (sampleEntryOn.device.uptime,
        sampleEntryOn.device.total_runtime) ∧
    runtimeLeUptime
      (runOps sampleSimOn
        [.relayOp "dev1" RelayState.on sampleNow,
         .tickOp (fun _ => ⟨false, 3⟩) sampleNow,
         .tickOp (fun _ => ⟨true, -2⟩) sampleNow]) = true ∧
    allRuntimeZero
      (runOps sampleSim
        [.tickOp (fun _ => ⟨false, 3⟩) sampleNow,
         .relayOp "dev1" RelayState.off sampleNow,
         .tickOp (fun _ => ⟨true, -2⟩) sampleNow]) = true := by
  have hOn := C6_runtime_uptime_invariant sampleSimOn
    (fun _ => ⟨false, 3⟩) sampleNow
    [.relayOp "dev1" RelayState.on sampleNow,
     .tickOp (fun _ => ⟨false, 3⟩) sampleNow,
     .tickOp (fun _ => ⟨true, -2⟩) sampleNow]
    "dev1" sampleEntryOn RelayState.off sampleNow (by decide) (by decide)
  have hOff := C6_runtime_uptime_invariant sampleSim
    (fun _ => ⟨false, 3⟩) sampleNow
    [.tickOp (fun _ => ⟨false, 3⟩) sampleNow,
     .relayOp "dev1" RelayState.off sampleNow,
     .tickOp (fun _ => ⟨true, -2⟩) sampleNow]
    "dev1" sampleEntry RelayState.off sampleNow (by decide) (by decide)
  exact ⟨hOn.1, hOn.2.1, hOn.2.2.1,
    hOff.2.2.2 (by decide) (by decide)
      (by intro op hop
          simp only [List.mem_cons, List.not_mem_nil, or_false] at hop
          rcases hop with rfl | rfl | rfl <;> rfl)⟩

/-- C7: publishing to a duplicate-free subscriber list in which exactly
one connection fails delivers the message, in list order, to every
other connection, collects exactly the failing connection during the
sweep, removes exactly it afterward, and returns normally (the failure
is swallowed, never surfaced). -/
theorem C7_broadcast_drops_only_failed (active : List Conn)
    (fails : Conn → Bool) (message : String) (c : Conn)
    (hnd : active.Nodup) (hmem : c ∈ active) (hc : fails c = true)
    (hothers : ∀ x ∈ active, x ≠ c → fails x = false) :
    broadcast active fails message =
      ((active.erase c).map (fun x => (x, message)), active.erase c) ∧
    (broadcastSweep active fails message).2 = [c] ∧
    (broadcast active fails message).1.length + 1 = active.length := by
  obtain ⟨h1, h2⟩ := unique_fail_filters fails active c hnd hmem hc hothers
  have hbr : broadcast active fails message =
      ((active.erase c).map (fun x => (x, message)), active.erase c) := by
    unfold broadcast
    rw [broadcastSweep_eq, h1, h2]
    simp only [List.foldl_cons, List.foldl_nil]
    unfold disconnect
    rw [if_pos hmem]
  refine ⟨hbr, ?_, ?_⟩
  · rw [broadcastSweep_eq, h2]
  · rw [hbr]
    have hlen := List.length_erase_of_mem hmem
    have hpos : 0 < active.length := List.length_pos.mpr
      (fun hnil => by rw [hnil] at hmem; cases hmem)
    simp only [List.length_map]
    omega

/-- C7 witness: three subscribers of which the middle one is dead. -/
theorem C7_witness :
    broadcast [1, 2, 3] (fun c => c = 2) "msg" =
      (([1, 2, 3].erase 2).map (fun x => (x, "msg")), [1, 2, 3].erase 2) ∧
    (broadcastSweep [1, 2, 3] (fun c => c = 2) "msg").2 = [2] ∧
    (broadcast [1, 2, 3] (fun c => c = 2) "msg").1.length + 1 =
      [1, 2, 3].length :=
  C7_broadcast_drops_only_failed [1, 2, 3] (fun c => c = 2) "msg" 2
    (by decide) (by decide) (by decide) (by decide)

/-- C8: a failing step inside `execute_schedule` is caught and logged
(a failing relay-control await returns normally with the logged error);
when every loaded schedule's trigger time parses, the cycle raises no
uncaught error and executes exactly the triggering schedules in order,
whatever errors their executions log; and every scheduler iteration
ends with its normal 60-unit sleep. -/
theorem C8_scheduler_survives_errors (sim : SimState) (now : DateTime)
    (schedules : List (Schedule × ExecBehavior))
    (h : ∀ sb ∈ schedules, (parseTriggerTime sb.1.trigger_time).isSome = true) :
    (∀ (sim2 : SimState) (schedule : Schedule) (now2 : DateTime)
        (b : ExecBehavior) (e : String), b.ctrl = .error e →
        execute_schedule sim2 schedule now2 b = (sim2, [], some e)) ∧
    (scheduler_cycle sim now schedules).uncaught = none ∧
    (scheduler_cycle sim now schedules).executed.map Prod.fst =
      (schedules.filter (fun sb => triggersOk sb.1 now)).map
        (fun sb => sb.1.id) ∧
    (∀ (schedules2 : List (Schedule × ExecBehavior)),
      (scheduler_iteration sim schedules2 now).2.2 = 60) := by
  obtain ⟨hu, he⟩ := scheduler_cycle_complete now schedules sim h
  exact ⟨fun sim2 sched now2 b e hb =>
      execute_schedule_ctrl_error sim2 sched now2 b e hb,
    hu, he, fun _ => rfl⟩

/-- C8 witness: two triggering daily schedules, the first of which
fails its relay-control step; both are still executed and the iteration
sleeps 60. -/
theorem C8_witness :
    execute_schedule sampleSim sampleDaily sampleNow
        { ctrl := Except.error "boom" } =
      (sampleSim, [], some "boom") ∧
    (scheduler_cycle sampleSim sampleNow
        [(sampleDaily, { ctrl := Except.error "boom" }),
         ({ sampleDaily with id := "sch9" }, {})]).uncaught = none ∧
    (scheduler_cycle sampleSim sampleNow
        [(sampleDaily, { ctrl := Except.error "boom" }),
         ({ sampleDaily with id := "sch9" }, {})]).executed.map Prod.fst =
      ([(sampleDaily, ({ ctrl := Except.error "boom" } : ExecBehavior)),
        ({ sampleDaily with id := "sch9" }, {})].filter
          (fun sb => triggersOk sb.1 sampleNow)).map (fun sb => sb.1.id) ∧
    (∀ (schedules2 : List (Schedule × ExecBehavior)),
      (scheduler_iteration sampleSim schedules2 sampleNow).2.2 = 60) := by
  have h := C8_scheduler_survives_errors sampleSim sampleNow
    [(sampleDaily, { ctrl := Except.error "boom" }),
     ({ sampleDaily with id := "sch9" }, {})]
    (by intro sb hsb
        simp only [List.mem_cons, List.not_mem_nil, or_false] at hsb
        rcases hsb with rfl | rfl <;> decide)
  exact ⟨h.1 sampleSim sampleDaily sampleNow _ "boom" rfl, h.2.1, h.2.2.1,
    h.2.2.2⟩

/-- C9: a successful schedule-triggered relay change inserts exactly
two device logs: the "manual"-labelled one from `control_relay` (which
always labels its log manual, whoever the caller is), then the
`schedule:<name>` one from `execute_schedule`, whose old-state field is
unset. -/
theorem C9_schedule_inserts_two_logs (sim : SimState)
    (schedule : Schedule) (now : DateTime) (entry : SimEntry)
    (h : sim.lookup schedule.device_id = some entry) :
    logsOf (execute_schedule sim schedule now {}).2.1 =
      [ { device_id := schedule.device_id
          action := "relay_control"
          old_state := some entry.device.relay_state.value
          new_state := some schedule.target_state.value
          triggered_by := "manual"
          timestamp := now },
        { device_id := schedule.device_id
          action := "scheduled_control"
          old_state := none
          new_state := some schedule.target_state.value
          triggered_by := "schedule:" ++ schedule.name
          timestamp := now } ] := by
  unfold execute_schedule
  rw [control_relay_found schedule.target_state now h]
  by_cases ho : schedule.schedule_type = ScheduleType.once <;>
    simp [ho, logsOf]

/-- C9 witness: executing the daily schedule against the sample
simulator inserts the manual log and then the schedule log. -/
theorem C9_witness :
    logsOf (execute_schedule sampleSim sampleDaily sampleNow {}).2.1 =
      [ { device_id := sampleDaily.device_id
          action := "relay_control"
          old_state := some sampleEntry.device.relay_state.value
          new_state := some sampleDaily.target_state.value
          triggered_by := "manual"
          timestamp := sampleNow },
        { device_id := sampleDaily.device_id
          action := "scheduled_control"
          old_state := none
          new_state := some sampleDaily.target_state.value
          triggered_by := "schedule:" ++ sampleDaily.name
          timestamp := sampleNow } ] :=
  C9_schedule_inserts_two_logs sampleSim sampleDaily sampleNow
    sampleEntry (by decide)

/-- C10: device creation forces status online; after a tick every
registered device's status is online or offline (so an error status
does not survive a tick); and `control_relay` leaves the controlled
device's status unchanged — no modelled operation assigns the error
status. -/
theorem C10_no_error_status (s : SimState) (r : String → TickRand)
    (now : DateTime) (id did : String) (st : RelayState)
    (e entry : SimEntry)
    (hdev : s.lookup did = some e)
    (htick : (tick s r now).1.lookup id = some entry) :
    (∀ (inp : DeviceCreate) (nid : String) (ip : Nat) (t : DateTime),
      (create_device inp nid ip t).status = DeviceStatus.online) ∧
    (entry.device.status = DeviceStatus.online ∨
      entry.device.status = DeviceStatus.offline) ∧
    ((control_relay s did st now).2.1.lookup did).map
        (fun q => q.device.status) = some e.device.status := by
  refine ⟨fun inp nid ip t => rfl, ?_, ?_⟩
  · rw [lookup_tick] at htick
    cases he0 : s.lookup id with
    | none => rw [he0] at htick; simp at htick
    | some e0 =>
      rw [he0] at htick
      simp only [Option.map] at htick
      have htick' : (tickDevice e0 (r id) now).1 = entry := by
        simpa using htick
      rw [← htick', tickDevice_status]
      cases (r id).goOffline
      · simp
      · simp
  · rw [control_relay_lookup st now hdev]
    rfl

/-- C10 witness: creation forces online, the sample device's status
after one tick is online or offline, and a relay command leaves its
status untouched. -/
theorem C10_witness :
    (∀ (inp : DeviceCreate) (nid : String) (ip : Nat) (t : DateTime),
      (create_device inp nid ip t).status = DeviceStatus.online) ∧
    ((tickDevice sampleEntry ⟨false, 3⟩ sampleNow).1.device.status =
        DeviceStatus.online ∨
      (tickDevice sampleEntry ⟨false, 3⟩ sampleNow).1.device.status =
        DeviceStatus.offline) ∧
    ((control_relay sampleSim "dev1" RelayState.on
        sampleNow).2.1.lookup "dev1").map (fun q => q.device.status) =
      some sampleEntry.device.status :=
  C10_no_error_status sampleSim (fun _ => ⟨false, 3⟩) sampleNow "dev1"
    "dev1" RelayState.on sampleEntry
    ((tickDevice sampleEntry ⟨false, 3⟩ sampleNow).1)
    (by decide) (by decide)
